import Mathlib

/-!
A shallow embedding, in Lean 4, of the core of `src/app.py` (a Streamlit
marketing/enrollment site): credential hashing and verification
(`hash_password`, `verify_password`, built on `hashlib.sha256`),
registration and login against a `users` collection (`register_user`,
`login_user`), the course catalog read with its static fallback
(`get_courses`), admin course creation (`page_admin`'s "Salvar curso"
branch), best-effort e-mail dispatch (`send_email`), and enrollment intake
(`page_courses`'s "Inscrever me" branch).

Python strings are modelled as Lean `String`; Mongo collections as Lean
lists of records in insertion order (`find_one` is `List.find?`,
`insert_one` appends); `datetime.utcnow()` and `os.urandom` salts are
passed in as explicit parameters; raised-and-caught exceptions are
modelled by total functions with explicit outcome constructors.
-/

/- ### SHA-256 (the `hashlib.sha256(...).hexdigest()` used by the source)

Machine words are `Nat` reduced modulo `2 ^ 32`.  The implementation
follows FIPS 180-4 directly; messages are lists of byte values. -/

def M32 : Nat := 4294967296

def add32 (x y : Nat) : Nat := (x + y) % M32

/-- Right-rotation of a 32-bit word, written with division and remainder so
that (for `x < 2 ^ 32`) the two parts occupy disjoint bit ranges. -/
def rotr32 (n x : Nat) : Nat := x / 2 ^ n + x % 2 ^ n * 2 ^ (32 - n)

def shr32 (n x : Nat) : Nat := x / 2 ^ n

def bigSigma0 (x : Nat) : Nat := (rotr32 2 x) ^^^ (rotr32 13 x) ^^^ (rotr32 22 x)

def bigSigma1 (x : Nat) : Nat := (rotr32 6 x) ^^^ (rotr32 11 x) ^^^ (rotr32 25 x)

def smallSigma0 (x : Nat) : Nat := (rotr32 7 x) ^^^ (rotr32 18 x) ^^^ (shr32 3 x)

def smallSigma1 (x : Nat) : Nat := (rotr32 17 x) ^^^ (rotr32 19 x) ^^^ (shr32 10 x)

def not32 (x : Nat) : Nat := (M32 - 1) - x % M32

def chFn (e f g : Nat) : Nat := (e &&& f) ^^^ (not32 e &&& g)

def majFn (a b c : Nat) : Nat := (a &&& b) ^^^ (a &&& c) ^^^ (b &&& c)

/-- The 64 SHA-256 round constants. -/
def K256 : List Nat :=
  [1116352408, 1899447441, 3049323471, 3921009573, 961987163, 1508970993,
   2453635748, 2870763221, 3624381080, 310598401, 607225278, 1426881987,
   1925078388, 2162078206, 2614888103, 3248222580, 3835390401, 4022224774,
   264347078, 604807628, 770255983, 1249150122, 1555081692, 1996064986,
   2554220882, 2821834349, 2952996808, 3210313671, 3336571891, 3584528711,
   113926993, 338241895, 666307205, 773529912, 1294757372, 1396182291,
   1695183700, 1986661051, 2177026350, 2456956037, 2730485921, 2820302411,
   3259730800, 3345764771, 3516065817, 3600352804, 4094571909, 275423344,
   430227734, 506948616, 659060556, 883997877, 958139571, 1322822218,
   1537002063, 1747873779, 1955562222, 2024104815, 2227730452, 2361852424,
   2428436474, 2756734187, 3204031479, 3329325298]

/-- Working state of the compression function (eight 32-bit words). -/
structure Hash8 where
  a : Nat
  b : Nat
  c : Nat
  d : Nat
  e : Nat
  f : Nat
  g : Nat
  h : Nat
deriving Repr, DecidableEq

/-- SHA-256 initial hash value. -/
def H0 : Hash8 :=
  ⟨1779033703, 3144134277, 1013904242, 2773480762, 1359893119, 2600822924, 528734635, 1541459225⟩

/-- One round of the compression function; the pair holds `(K[t], W[t])`. -/
def roundStep (st : Hash8) (kw : Nat × Nat) : Hash8 :=
  let t1 := add32 st.h (add32 (bigSigma1 st.e) (add32 (chFn st.e st.f st.g) (add32 kw.1 kw.2)))
  let t2 := add32 (bigSigma0 st.a) (majFn st.a st.b st.c)
  ⟨add32 t1 t2, st.a, st.b, st.c, add32 st.d t1, st.e, st.f, st.g⟩

/-- Extend a 16-word block by `k` further message-schedule words. -/
def extendW : List Nat → Nat → List Nat
  | ws, 0 => ws
  | ws, k + 1 =>
    let acc := extendW ws k
    let n := acc.length
    acc ++ [add32 (add32 (smallSigma1 (acc.getD (n - 2) 0)) (acc.getD (n - 7) 0))
                  (add32 (smallSigma0 (acc.getD (n - 15) 0)) (acc.getD (n - 16) 0))]

/-- Compress one 16-word block into the running hash value. -/
def compressBlock (H : Hash8) (block : List Nat) : Hash8 :=
  let W := extendW block 48
  let st := (K256.zip W).foldl roundStep H
  ⟨add32 H.a st.a, add32 H.b st.b, add32 H.c st.c, add32 H.d st.d,
   add32 H.e st.e, add32 H.f st.f, add32 H.g st.g, add32 H.h st.h⟩

/-- Fold the compression function over successive 16-word blocks. -/
def sha256blocks : List Nat → Hash8 → Hash8
  | w0 :: w1 :: w2 :: w3 :: w4 :: w5 :: w6 :: w7 ::
    w8 :: w9 :: w10 :: w11 :: w12 :: w13 :: w14 :: w15 :: rest, H =>
      sha256blocks rest
        (compressBlock H [w0, w1, w2, w3, w4, w5, w6, w7, w8, w9, w10, w11, w12, w13, w14, w15])
  | _, H => H

/-- `k` big-endian bytes of `n`. -/
def beBytes : Nat → Nat → List Nat
  | 0, _ => []
  | k + 1, n => beBytes k (n / 256) ++ [n % 256]

/-- Group bytes four at a time into big-endian 32-bit words. -/
def toWords : List Nat → List Nat
  | a :: b :: c :: d :: rest => (((a * 256 + b) * 256 + c) * 256 + d) :: toWords rest
  | _ => []

/-- FIPS 180-4 padding: `0x80`, zeros to 56 mod 64, then the bit length on
eight big-endian bytes. -/
def sha256pad (msg : List Nat) : List Nat :=
  msg ++ [0x80] ++ List.replicate ((119 - msg.length % 64) % 64) 0 ++ beBytes 8 (msg.length * 8)

def sha256words (msg : List Nat) : Hash8 :=
  sha256blocks (toWords (sha256pad msg)) H0

/-- Lower-case hexadecimal digit. -/
def hexDigitChar (n : Nat) : Char :=
  if n < 10 then Char.ofNat (48 + n) else Char.ofNat (87 + n)

/-- Eight lower-case hex characters of a 32-bit word, most significant first. -/
def hexWord (w : Nat) : List Char :=
  [hexDigitChar (w / 2 ^ 28 % 16), hexDigitChar (w / 2 ^ 24 % 16),
   hexDigitChar (w / 2 ^ 20 % 16), hexDigitChar (w / 2 ^ 16 % 16),
   hexDigitChar (w / 2 ^ 12 % 16), hexDigitChar (w / 2 ^ 8 % 16),
   hexDigitChar (w / 2 ^ 4 % 16), hexDigitChar (w % 16)]

/-- UTF-8 encoding of one code point (the source hashes
`(salt + password).encode("utf-8")`). -/
def utf8Bytes (n : Nat) : List Nat :=
  if n < 0x80 then [n]
  else if n < 0x800 then
    [0xc0 ||| n / 2 ^ 6, 0x80 ||| n % 2 ^ 6]
  else if n < 0x10000 then
    [0xe0 ||| n / 2 ^ 12, 0x80 ||| n / 2 ^ 6 % 2 ^ 6, 0x80 ||| n % 2 ^ 6]
  else
    [0xf0 ||| n / 2 ^ 18, 0x80 ||| n / 2 ^ 12 % 2 ^ 6, 0x80 ||| n / 2 ^ 6 % 2 ^ 6, 0x80 ||| n % 2 ^ 6]

/-- UTF-8 bytes of a string. -/
def strBytes (s : String) : List Nat :=
  s.data.foldr (fun c acc => utf8Bytes c.toNat ++ acc) []

/-- `hashlib.sha256(strBytes).hexdigest()`. -/
def sha256hex (s : String) : String :=
  let H := sha256words (strBytes s)
  String.mk (hexWord H.a ++ hexWord H.b ++ hexWord H.c ++ hexWord H.d ++
             hexWord H.e ++ hexWord H.f ++ hexWord H.g ++ hexWord H.h)

example : sha256hex "abc" = "ba7816bf8f01cfea414140de5dae2223b00361a396177a9cb410ff61f20015ad" := by decide

/- ### Credential hashing and verification (`hash_password`, `verify_password`)

```python
def hash_password(password: str, salt: Optional[str] = None) -> str:
    if salt is None:
        salt = os.urandom(16).hex()
    hashed = hashlib.sha256((salt + password).encode("utf-8")).hexdigest()
    return f"{salt}${hashed}"

def verify_password(password: str, stored_hash: str) -> bool:
    try:
        salt, hashed = stored_hash.split("$")
    except ValueError:
        return False
    check = hashlib.sha256((salt + password).encode("utf-8")).hexdigest()
    return check == hashed
```

The randomly generated salt of the no-salt call is modelled by passing the
salt explicitly.  Python's `str.split(sep)` keeps empty fields, and
two-name unpacking raises `ValueError` (caught, returning `False`) unless
the split has exactly two fields; `splitOnChar` models the split and the
`match` below models the unpack. -/

/-- Python `s.split(sep)` for a one-character separator: splits at every
occurrence, keeping empty fields (`"".split("$") == [""]`). -/
def splitOnChar (sep : Char) : List Char → List String
  | [] => [""]
  | c :: cs =>
    let rest := splitOnChar sep cs
    if c = sep then "" :: rest
    else
      match rest with
      | [] => [String.mk [c]]
      | r :: rs => String.mk (c :: r.data) :: rs

def hash_password (password salt : String) : String :=
  salt ++ "$" ++ sha256hex (salt ++ password)

def verify_password (password stored_hash : String) : Bool :=
  match splitOnChar '$' stored_hash.data with
  | [salt, hashed] => sha256hex (salt ++ password) == hashed
  | _ => false

/- ### E-mail normalization (`email.lower().strip()`)

Python's `str.lower`/`str.strip` are modelled on the ASCII range (all
e-mail addresses appearing in the source are ASCII): `lower` maps
`'A'..'Z'` down by 32, `strip` removes the ASCII whitespace characters
from both ends. -/

def pyIsSpace (c : Char) : Bool :=
  c = ' ' || c = '\t' || c = '\n' || c = '\r' || c = '\x0b' || c = '\x0c'

def pyStrip (s : String) : String :=
  String.mk (((s.data.dropWhile pyIsSpace).reverse.dropWhile pyIsSpace).reverse)

def pyLowerChar (c : Char) : Char :=
  if 'A' ≤ c && c ≤ 'Z' then Char.ofNat (c.toNat + 32) else c

def pyLower (s : String) : String := String.mk (s.data.map pyLowerChar)

/-- `email.lower().strip()`, the normalization applied by `register_user`
and `login_user`. -/
def normEmail (email : String) : String := pyStrip (pyLower email)

example : normEmail "  ANA@X.COM " = "ana@x.com" := by decide
example : splitOnChar '$' "a$$b".data = ["a", "", "b"] := by decide
example : splitOnChar '$' "".data = [""] := by decide
example : verify_password "p1" (hash_password "p1" "ab") = true := by decide
example : verify_password "p2" (hash_password "p1" "ab") = false := by decide

/- ### Account directory (`register_user`, `login_user`)

The Mongo `users` collection is a list of records in insertion order:
`find_one(filter)` is `List.find?`, `insert_one` appends.  A stored
document may lack the `password_hash` field (Mongo is schemaless and
`login_user` reads it with `user.get("password_hash", "")`), hence the
`Option String`.  Mongo's generated `_id` and `datetime.utcnow()` are the
explicit `id`/`created_at` parameters, and the random salt of
`hash_password(password)` is the explicit `salt` parameter. -/

structure UserRec where
  id : Nat
  name : String
  email : String
  password_hash : Option String
  created_at : Nat
  active : Bool
deriving Repr, DecidableEq

/-- Source:
```python
def register_user(name: str, email: str, password: str) -> Tuple[bool, str]:
    users_col = db["users"]
    if users_col.find_one(\x7b"email": email.lower().strip()\x7d):
        return False, "E mail já cadastrado."
    pwd_hash = hash_password(password)
    normalized_email = email.lower().strip()
    users_col.insert_one(\x7b"name": name, "email": normalized_email,
        "password_hash": pwd_hash, "created_at": datetime.datetime.utcnow(),
        "active": True\x7d)
    ...  # welcome / admin notifications, modelled separately below
    return True, "Cadastro realizado com sucesso. Você já pode fazer login."
``` -/
def register_user (users : List UserRec) (name email password salt : String)
    (newId now : Nat) : (Bool × String) × List UserRec :=
  if (users.find? (fun u => u.email == normEmail email)).isSome then
    ((false, "E mail já cadastrado."), users)
  else
    ((true, "Cadastro realizado com sucesso. Você já pode fazer login."),
      users ++ [⟨newId, name, normEmail email, some (hash_password password salt), now, true⟩])

/-- The filter `\x7b"email": normalized, "active": True\x7d` of `login_user`. -/
def loginFilter (email : String) (u : UserRec) : Bool :=
  u.email == normEmail email && u.active

/-- Source:
```python
def login_user(email: str, password: str) -> Tuple[bool, Union[str, Dict[str, Any]]]:
    users_col = db["users"]
    user = users_col.find_one(\x7b"email": email.lower().strip(), "active": True\x7d)
    if not user:
        return False, "Usuário não encontrado ou inativo."
    if not verify_password(password, user.get("password_hash", "")):
        return False, "Senha incorreta."
    return True, user
``` -/
def login_user (users : List UserRec) (email password : String) :
    Bool × (String ⊕ UserRec) :=
  match users.find? (loginFilter email) with
  | none => (false, Sum.inl "Usuário não encontrado ou inativo.")
  | some user =>
    if verify_password password (user.password_hash.getD "") then (true, Sum.inr user)
    else (false, Sum.inl "Senha incorreta.")

/- ### Course catalog (`get_courses` and the admin "Salvar curso" branch) -/

structure Course where
  nome : String
  categoria : String
  nivel : String
  descricao : String
  carga_horaria : String
  tag : String
  imagem_url : String
  preco : String
  destaque : Bool
  proxima_turma : String
  ordem : Int
  ativo : Bool
  created_at : Nat
deriving Repr, DecidableEq

/-- The ten display fields `get_courses` projects out of a stored course
document (`ordem`, `ativo`, `created_at` are dropped). -/
structure CourseView where
  nome : String
  categoria : String
  nivel : String
  descricao : String
  carga_horaria : String
  tag : String
  imagem_url : String
  preco : String
  destaque : Bool
  proxima_turma : String
deriving Repr, DecidableEq

def courseView (c : Course) : CourseView :=
  ⟨c.nome, c.categoria, c.nivel, c.descricao, c.carga_horaria, c.tag,
   c.imagem_url, c.preco, c.destaque, c.proxima_turma⟩

/-- Mongo's `.sort("ordem", 1)`: a stable ascending sort on `ordem`,
modelled by insertion sort. -/
def insertOrdem (c : Course) : List Course → List Course
  | [] => [c]
  | d :: ds => if d.ordem ≤ c.ordem then d :: insertOrdem c ds else c :: d :: ds

def sortByOrdem (l : List Course) : List Course := l.foldr insertOrdem []

/-- The fixed local example list `get_courses` falls back to. -/
def fallback_courses : List CourseView :=
  [⟨"Formação em Python para Programação", "Programação", "Iniciante a Intermediário",
    "Curso focado em problemas reais e boas práticas modernas em Python.", "24h",
    "Python", "", "997,00", true, "Próxima turma: Setembro 2025"⟩,
   ⟨"Ciência de Dados Aplicada a Negócios", "Ciência de Dados", "Intermediário",
    "Da coleta à visualização com foco em métricas de negócio e tomada de decisão.", "32h",
    "Data Science", "", "1.297,00", true, "Próxima turma: Outubro 2025"⟩,
   ⟨"Inteligência Artificial e Machine Learning", "IA e ML", "Intermediário a Avançado",
    "Modelos preditivos, pipelines e implantação em ambiente produtivo.", "36h",
    "Machine Learning", "", "1.497,00", true, "Próxima turma: Novembro 2025"⟩,
   ⟨"Visualização de Dados e Storytelling", "Visualização", "Intermediário",
    "Dashboards, gráficos eficientes e comunicação com executivos.", "20h",
    "Data Viz", "", "897,00", false, "Próxima turma: Em breve"⟩,
   ⟨"Estrutura de Dados e Algoritmos", "Fundamentos", "Intermediário",
    "Fundamentos sólidos de estruturas de dados e algoritmos.", "24h",
    "Algoritmos", "", "997,00", false, "Próxima turma: Em breve"⟩,
   ⟨"Banco de Dados Relacionais e NoSQL", "Banco de Dados", "Intermediário",
    "Modelagem, SQL, MongoDB e conceitos de bancos híbridos modernos.", "28h",
    "Databases", "", "1.097,00", false, "Próxima turma: Em breve"⟩]

/-- Source:
```python
def get_courses():
    courses_col = db["courses"]
    try:
        cursos_db = list(courses_col.find(\x7b"ativo": True\x7d).sort("ordem", 1))
    except Exception:
        cursos_db = []
    if cursos_db:
        return [\x7b"nome": c.get("nome"), ... \x7d for c in cursos_db]
    return [ ...six local example courses... ]
```
`queryFails` models the caught `except Exception` of the Mongo query. -/
def get_courses (courses : List Course) (queryFails : Bool) : List CourseView :=
  let cursos_db := if queryFails then [] else sortByOrdem (courses.filter (fun c => c.ativo))
  if cursos_db.isEmpty then fallback_courses else cursos_db.map courseView

/-- Outcome of the admin "Salvar curso" form handler. -/
inductive CreateResult where
  | validationError
  | created (c : Course)
deriving Repr, DecidableEq

/-- Source:
```python
if submitted:
    if not nome:
        st.error("Informe pelo menos o nome do curso.")
    else:
        doc = \x7b"nome": nome, "categoria": categoria, "nivel": nivel,
            "carga_horaria": carga_horaria, "tag": tag, "imagem_url": imagem_url,
            "preco": preco, "proxima_turma": proxima_turma,
            "destaque": bool(destaque), "descricao": descricao,
            "ordem": int(ordem), "ativo": bool(ativo),
            "created_at": datetime.datetime.utcnow()\x7d
        courses_col.insert_one(doc)
```
The form widgets default `ordem` to `0` (`st.number_input(..., value=0)`)
and `ativo` to `True` (`st.checkbox("Curso ativo", value=True)`); those
defaults are instantiated explicitly in the theorems below. -/
def create_course (nome categoria nivel carga_horaria tag imagem_url preco
    proxima_turma : String) (destaque : Bool) (descricao : String) (ordem : Int)
    (ativo : Bool) (now : Nat) (courses : List Course) : CreateResult × List Course :=
  if nome = "" then (.validationError, courses)
  else
    let doc : Course := ⟨nome, categoria, nivel, descricao, carga_horaria, tag,
                         imagem_url, preco, destaque, proxima_turma, ordem, ativo, now⟩
    (.created doc, courses ++ [doc])

/- ### Notification dispatcher (`send_email`)

```python
def send_email(to: Union[str, List[str]], subject: str, body: str) -> None:
    smtp_host = st.secrets.get("SMTP_HOST", os.getenv("SMTP_HOST", ""))
    if not smtp_host:
        return
    ...
    if isinstance(to, List):
        recipients = [t for t in to if t]
    else:
        recipients = [to] if to else []
    if not recipients:
        return
    ...
    try:
        with smtplib.SMTP(smtp_host, smtp_port, timeout=10) as server:
            ...
            server.send_message(msg)
    except Exception:
        pass
```

The SMTP transport is external; whether it raises is the `transportFails`
parameter, and the `try/except Exception: pass` is the `match` on
`smtpTransport` below, mapping every failure to an ordinary outcome value
(`failureSwallowed`) instead of a propagated exception. -/

structure SMTPConfig where
  host : String
  port : Nat
  user : String
  password : String
  use_tls : Bool
  from_email : String
deriving Repr, DecidableEq

/-- The `Union[str, List[str]]` recipients argument. -/
inductive Recipients where
  | one : String → Recipients
  | many : List String → Recipients
deriving Repr, DecidableEq

/-- `[t for t in to if t]` resp. `[to] if to else []` (Python truthiness of
a string is non-emptiness). -/
def filterRecipients : Recipients → List String
  | .many l => l.filter (fun t => t ≠ "")
  | .one t => if t ≠ "" then [t] else []

inductive EmailOutcome where
  | noHost
  | noRecipients
  | sent (recipients : List String)
  | failureSwallowed (recipients : List String)
deriving Repr, DecidableEq

/-- The external `smtplib` session: either delivers or raises. -/
def smtpTransport (transportFails : Bool) : Except String Unit :=
  if transportFails then Except.error "SMTPException" else Except.ok ()

def send_email (cfg : SMTPConfig) (transportFails : Bool) (toAddr : Recipients)
    (subject body : String) : EmailOutcome :=
  if cfg.host = "" then .noHost
  else
    let recipients := filterRecipients toAddr
    if recipients = [] then .noRecipients
    else
      match smtpTransport transportFails with
      | .ok _ => .sent recipients
      | .error _ => .failureSwallowed recipients

/-- `register_user` followed by its notification block: the welcome mail to
the new user and — `if ADMIN_EMAILS:` — the admin notification, each inside
its own `try/except Exception: pass`.  Returns the register result together
with the outcomes of the dispatched mails. -/
def register_user_notify (cfg : SMTPConfig) (tfUser tfAdmin : Bool)
    (adminEmails : List String) (users : List UserRec)
    (name email password salt : String) (newId now : Nat) :
    ((Bool × String) × List UserRec) × List EmailOutcome :=
  let r := register_user users name email password salt newId now
  if r.1.1 = false then (r, [])
  else
    let o1 := send_email cfg tfUser (.one (normEmail email))
      "Bem vindo(a) à plataforma AI & Data Consulting"
      ("Olá, " ++ name ++ ".\n\nSeu cadastro na plataforma AI & Data Consulting foi concluído com sucesso.\nEm breve você receberá novidades sobre cursos, trilhas e conteúdos exclusivos.\n\nAtenciosamente,\nEquipe AI & Data Consulting")
    if adminEmails ≠ [] then
      let o2 := send_email cfg tfAdmin (.many adminEmails)
        "Novo cadastro de usuário no site"
        ("Novo cadastro de usuário no site AI & Data Consulting.\n\nNome: " ++ name ++ "\nE mail: " ++ normEmail email ++ "\n")
      (r, [o1, o2])
    else (r, [o1])

/- ### Lead and enrollment intake (`page_contact`, `page_courses`) -/

structure Lead where
  nome : String
  email : String
  empresa : String
  tipo_interesse : String
  mensagem : String
  created_at : Nat
deriving Repr, DecidableEq

/-- A document of the `inscricoes` collection: the denormalized snapshot
inserted by the "Inscrever me" handler. -/
structure Enrollment where
  user_id : Nat
  user_name : String
  user_email : String
  curso_nome : String
  curso_tag : String
  curso_preco : String
  curso_proxima_turma : String
  created_at : Nat
deriving Repr, DecidableEq

/-- The four collections of the document store. -/
structure DBState where
  users : List UserRec
  courses : List Course
  leads : List Lead
  inscricoes : List Enrollment
deriving Repr, DecidableEq

inductive EnrollResult where
  | unauthenticated
  | registered (e : Enrollment)
deriving Repr, DecidableEq

/-- Source:
```python
if st.button("Inscrever me", key=btn_key):
    if st.session_state["user"] is None:
        st.warning("Faça login na barra lateral para concluir a pré inscrição neste curso.")
    else:
        user = st.session_state["user"]
        inscricoes_col.insert_one(\x7b"user_id": user["_id"], "user_name": user["name"],
            "user_email": user["email"], "curso_nome": curso["nome"],
            "curso_tag": curso.get("tag", ""), "curso_preco": preco,
            "curso_proxima_turma": proxima,
            "created_at": datetime.datetime.utcnow()\x7d)
```
`sessionUser` is `st.session_state["user"]` (`None` when not logged in). -/
def submit_enrollment (sessionUser : Option UserRec) (curso : CourseView)
    (now : Nat) (db : DBState) : EnrollResult × DBState :=
  match sessionUser with
  | none => (.unauthenticated, db)
  | some user =>
    let e : Enrollment := ⟨user.id, user.name, user.email, curso.nome, curso.tag,
                           curso.preco, curso.proxima_turma, now⟩
    (.registered e, { db with inscricoes := db.inscricoes ++ [e] })

/- ### Lemmas about `splitOnChar`, `verify_password` and `hash_password` -/

theorem splitOnChar_ne_nil (sep : Char) (l : List Char) : splitOnChar sep l ≠ [] := by
  cases l with
  | nil => simp [splitOnChar]
  | cons c cs =>
    simp only [splitOnChar]
    by_cases h : c = sep
    · simp [h]
    · rcases hr : splitOnChar sep cs with _ | ⟨r, rs⟩ <;> simp [h, hr]

/-- The number of fields produced by Python's `split` is the number of
separators plus one. -/
theorem length_splitOnChar (sep : Char) (l : List Char) :
    (splitOnChar sep l).length = l.count sep + 1 := by
  induction l with
  | nil => simp [splitOnChar]
  | cons c cs ih =>
    by_cases h : c = sep
    · simp [splitOnChar, h, List.count_cons, ih]
    · rcases hr : splitOnChar sep cs with _ | ⟨r, rs⟩
      · exact absurd hr (splitOnChar_ne_nil sep cs)
      · rw [hr] at ih
        simp [splitOnChar, h, hr, List.count_cons] at ih ⊢
        omega

/-- A `stored_hash` whose number of `$` characters is not exactly one makes
the two-name unpacking in `verify_password` raise `ValueError`, which the
source catches by returning `False`. -/
theorem verify_password_malformed (password stored : String)
    (h : stored.data.count '$' ≠ 1) : verify_password password stored = false := by
  have hlen : (splitOnChar '$' stored.data).length ≠ 2 := by
    rw [length_splitOnChar]; omega
  unfold verify_password
  rcases hs : splitOnChar '$' stored.data with _ | ⟨a, tl⟩
  · rfl
  · rcases tl with _ | ⟨b, tl2⟩
    · rfl
    · rcases tl2 with _ | ⟨c, tl3⟩
      · exact absurd (by rw [hs]; rfl) hlen
      · rfl

theorem hexDigitChar_lt_ne_dollar : ∀ n < 16, hexDigitChar n ≠ '$' := by decide

theorem hexWord_ne_dollar (w : Nat) : ∀ c ∈ hexWord w, c ≠ '$' := by
  intro c hc
  simp only [hexWord, List.mem_cons, List.not_mem_nil, or_false] at hc
  rcases hc with h | h | h | h | h | h | h | h <;>
    exact h ▸ hexDigitChar_lt_ne_dollar _ (Nat.mod_lt _ (by decide))

/-- A SHA-256 hex digest consists of hexadecimal characters only, so it
never contains the `$` separator. -/
theorem sha256hex_ne_dollar (s : String) : ∀ c ∈ (sha256hex s).data, c ≠ '$' := by
  intro c hc
  simp only [sha256hex, List.mem_append] at hc
  rcases hc with ((((((h | h) | h) | h) | h) | h) | h) | h <;>
    exact hexWord_ne_dollar _ c h

theorem splitOnChar_no_sep (sep : Char) (l : List Char) (h : ∀ c ∈ l, c ≠ sep) :
    splitOnChar sep l = [String.mk l] := by
  induction l with
  | nil => rfl
  | cons c cs ih =>
    have hc : c ≠ sep := h c (by simp)
    have ih' := ih (fun x hx => h x (by simp [hx]))
    simp [splitOnChar, hc, ih']

theorem splitOnChar_sep_append (sep : Char) (l₁ l₂ : List Char)
    (h : ∀ c ∈ l₁, c ≠ sep) :
    splitOnChar sep (l₁ ++ sep :: l₂) = String.mk l₁ :: splitOnChar sep l₂ := by
  induction l₁ with
  | nil => simp [splitOnChar]
  | cons c cs ih =>
    have hc : c ≠ sep := h c (by simp)
    have ih' := ih (fun x hx => h x (by simp [hx]))
    simp [splitOnChar, hc, ih']

theorem hash_password_data (password salt : String) :
    (hash_password password salt).data
      = salt.data ++ '$' :: (sha256hex (salt ++ password)).data := by
  simp [hash_password, String.data_append]

/-- Round trip of the credential hasher for salts free of the `$`
separator (in particular for every salt `os.urandom(16).hex()` can
generate). -/
theorem verify_hash_password (password salt : String)
    (h : ∀ c ∈ salt.data, c ≠ '$') :
    verify_password password (hash_password password salt) = true := by
  unfold verify_password
  rw [hash_password_data,
      splitOnChar_sep_append '$' salt.data _ h,
      splitOnChar_no_sep '$' _ (sha256hex_ne_dollar (salt ++ password))]
  simp

/- ### Lemmas about the catalog sort -/

theorem insertOrdem_perm (c : Course) (l : List Course) :
    List.Perm (insertOrdem c l) (c :: l) := by
  induction l with
  | nil => exact List.Perm.refl [c]
  | cons d ds ih =>
    by_cases h : d.ordem ≤ c.ordem
    · simp only [insertOrdem, if_pos h]
      exact (ih.cons d).trans (List.Perm.swap c d ds)
    · simp only [insertOrdem, if_neg h]
      exact List.Perm.refl _

theorem sortByOrdem_perm (l : List Course) : List.Perm (sortByOrdem l) l := by
  induction l with
  | nil => exact List.Perm.refl []
  | cons c cs ih => exact (insertOrdem_perm c (sortByOrdem cs)).trans (ih.cons c)

theorem pairwise_insertOrdem (c : Course) (l : List Course)
    (h : List.Pairwise (fun a b => a.ordem ≤ b.ordem) l) :
    List.Pairwise (fun a b => a.ordem ≤ b.ordem) (insertOrdem c l) := by
  induction l with
  | nil => simp [insertOrdem]
  | cons d ds ih =>
    rcases List.pairwise_cons.mp h with ⟨hd, hds⟩
    by_cases hle : d.ordem ≤ c.ordem
    · simp only [insertOrdem, if_pos hle]
      rw [List.pairwise_cons]
      refine ⟨fun x hx => ?_, ih hds⟩
      rcases List.mem_cons.mp ((insertOrdem_perm c ds).mem_iff.mp hx) with hxc | hxds
      · exact hxc ▸ hle
      · exact hd x hxds
    · simp only [insertOrdem, if_neg hle]
      have hcd : c.ordem ≤ d.ordem := le_of_not_le hle
      rw [List.pairwise_cons]
      refine ⟨fun x hx => ?_, h⟩
      rcases List.mem_cons.mp hx with hxd | hxds
      · exact hxd ▸ hcd
      · exact le_trans hcd (hd x hxds)

theorem sortByOrdem_sorted (l : List Course) :
    List.Pairwise (fun a b => a.ordem ≤ b.ordem) (sortByOrdem l) := by
  induction l with
  | nil => simp [sortByOrdem]
  | cons c cs ih => exact pairwise_insertOrdem c _ ih

/- ### The claims -/

/-- C1, as stated, is false on the code: the claim quantifies over every
salt, but a salt containing the `$` separator makes the stored value split
into three or more fields, so verification fails.  Concretely, with
password `"a"` and salt `"$"`, `verify_password` returns `False` on the
hash just produced. -/
theorem C1_counterexample :
    verify_password "a" (hash_password "a" "$") = false := by decide

/-- C1 (amended): for every password `p` and every salt `s` that contains
no `$` character — in particular every salt `os.urandom(16).hex()`
generates — verifying `p` against `hash_password p s` returns true. -/
theorem C1_theorem (password salt : String) (h : ∀ c ∈ salt.data, c ≠ '$') :
    verify_password password (hash_password password salt) = true :=
  verify_hash_password password salt h

/-- Witness for C1 at password `"p1"`, salt `"9f"`. -/
theorem C1_witness :
    (∀ c ∈ "9f".data, c ≠ '$')
    ∧ verify_password "p1" (hash_password "p1" "9f") = true :=
  ⟨by decide, C1_theorem "p1" "9f" (by decide)⟩

/-- C6: a stored hash whose `$`-count is not exactly one (zero, or two or
more separators) makes `verify_password` return `False`; the `ValueError`
of the two-name unpacking is caught, so nothing is raised (in the
embedding: `verify_password` is a total function into `Bool`). -/
theorem C6_theorem (password stored : String)
    (h : stored.data.count '$' ≠ 1) :
    verify_password password stored = false :=
  verify_password_malformed password stored h

/-- Witness for C6 at stored hash `"deadbeef"` (zero separators) and
`"a$b$c"` (two separators). -/
theorem C6_witness :
    ("deadbeef".data.count '$' ≠ 1 ∧ verify_password "pw" "deadbeef" = false)
    ∧ ("a$b$c".data.count '$' ≠ 1 ∧ verify_password "pw" "a$b$c" = false) :=
  ⟨⟨by decide, C6_theorem "pw" "deadbeef" (by decide)⟩,
   ⟨by decide, C6_theorem "pw" "a$b$c" (by decide)⟩⟩

/-- C10: an active user found by the login filter whose stored document
lacks the `password_hash` field is verified against the empty-string
default `user.get("password_hash", "")`; the empty string has no `$`
separator, so verification returns `False` and `login_user` answers
`(False, "Senha incorreta.")` instead of raising. -/
theorem C10_theorem (users : List UserRec) (email password : String)
    (u : UserRec) (hfind : users.find? (loginFilter email) = some u)
    (hmiss : u.password_hash = none) :
    login_user users email password = (false, Sum.inl "Senha incorreta.") := by
  have hv : verify_password password "" = false :=
    verify_password_malformed password "" (by decide)
  simp [login_user, hfind, hmiss, hv]

/-- Witness for C10: a single active user with no stored hash. -/
theorem C10_witness :
    ([(⟨1, "Ana", "ana@x.com", none, 5, true⟩ : UserRec)].find? (loginFilter "ana@x.com")
        = some ⟨1, "Ana", "ana@x.com", none, 5, true⟩)
    ∧ login_user [⟨1, "Ana", "ana@x.com", none, 5, true⟩] "ana@x.com" "p1"
        = (false, Sum.inl "Senha incorreta.") :=
  ⟨by decide,
   C10_theorem [⟨1, "Ana", "ana@x.com", none, 5, true⟩] "ana@x.com" "p1"
     ⟨1, "Ana", "ana@x.com", none, 5, true⟩ (by decide) rfl⟩

/-- C2: if some stored user already has the normalized input e-mail,
`register_user` returns `(False, "E mail já cadastrado.")` and leaves the
collection unchanged; and (non-concurrent path) registering twice from an
empty collection — the second call with any e-mail that normalizes to the
same address, e.g. differing in case or surrounding whitespace — leaves
exactly one record, the second call failing as a duplicate. -/
theorem C2_theorem (users : List UserRec)
    (name email password salt n2 e2 p2 s2 : String) (newId now i2 t2 : Nat) :
    ((∃ u ∈ users, u.email = normEmail email) →
      register_user users name email password salt newId now
        = ((false, "E mail já cadastrado."), users))
    ∧ (normEmail e2 = normEmail email →
        (register_user [] name email password salt newId now).1.1 = true
        ∧ (register_user [] name email password salt newId now).2.length = 1
        ∧ (register_user (register_user [] name email password salt newId now).2
            n2 e2 p2 s2 i2 t2).1 = (false, "E mail já cadastrado.")
        ∧ (register_user (register_user [] name email password salt newId now).2
            n2 e2 p2 s2 i2 t2).2
          = (register_user [] name email password salt newId now).2) := by
  constructor
  · rintro ⟨u, hu, he⟩
    have hs : (users.find? (fun u => u.email == normEmail email)).isSome := by
      rw [List.find?_isSome]
      exact ⟨u, hu, by simp [he]⟩
    simp [register_user, hs]
  · intro heq
    refine ⟨?_, ?_, ?_, ?_⟩ <;> simp [register_user, heq]

/-- Witness for C2: the spec's scenario — register
`("Ana", "ana@x.com", "p1")`, then `("Ana2", "ANA@X.COM ", "p2")`. -/
theorem C2_witness :
    normEmail "ANA@X.COM " = normEmail "ana@x.com"
    ∧ (register_user [] "Ana" "ana@x.com" "p1" "aa" 1 10).1.1 = true
    ∧ (register_user [] "Ana" "ana@x.com" "p1" "aa" 1 10).2.length = 1
    ∧ (register_user (register_user [] "Ana" "ana@x.com" "p1" "aa" 1 10).2
        "Ana2" "ANA@X.COM " "p2" "bb" 2 20).1 = (false, "E mail já cadastrado.")
    ∧ (register_user (register_user [] "Ana" "ana@x.com" "p1" "aa" 1 10).2
        "Ana2" "ANA@X.COM " "p2" "bb" 2 20).2
      = (register_user [] "Ana" "ana@x.com" "p1" "aa" 1 10).2 :=
  ⟨by decide,
   (C2_theorem [] "Ana" "ana@x.com" "p1" "aa" "Ana2" "ANA@X.COM " "p2" "bb" 1 10 2 20).2
     (by decide)⟩

/-- C3: `login_user` answers `(False, "Usuário não encontrado ou
inativo.")` when no stored user is both active and has the normalized
input e-mail (a deactivated account is thereby indistinguishable from an
absent one); when the lookup finds such a user, it answers `(False,
"Senha incorreta.")` if the password fails to verify against the stored
hash, and `(True, user)` — the found user's record — if it verifies. -/
theorem C3_theorem (users : List UserRec) (email password : String) :
    ((∀ u ∈ users, ¬(u.email = normEmail email ∧ u.active = true)) →
      login_user users email password
        = (false, Sum.inl "Usuário não encontrado ou inativo."))
    ∧ (∀ u, users.find? (loginFilter email) = some u →
        (verify_password password (u.password_hash.getD "") = false →
          login_user users email password = (false, Sum.inl "Senha incorreta."))
        ∧ (verify_password password (u.password_hash.getD "") = true →
          login_user users email password = (true, Sum.inr u))) := by
  constructor
  · intro hnone
    have h0 : users.find? (loginFilter email) = none := by
      rw [List.find?_eq_none]
      intro u hu
      simpa [loginFilter] using hnone u hu
    simp [login_user, h0]
  · intro u hu
    constructor <;> intro hv <;> simp [login_user, hu, hv]

/-- Witness for C3: unknown e-mail, a deactivated account, a wrong
password, and a correct password, on concrete single-user collections. -/
theorem C3_witness :
    login_user [] "x@y.z" "p"
        = (false, Sum.inl "Usuário não encontrado ou inativo.")
    ∧ login_user [⟨1, "Ana", "ana@x.com", some (hash_password "p1" "9f"), 5, false⟩]
        "ana@x.com" "p1" = (false, Sum.inl "Usuário não encontrado ou inativo.")
    ∧ login_user [⟨1, "Ana", "ana@x.com", some (hash_password "p1" "9f"), 5, true⟩]
        "ana@x.com" "wrong" = (false, Sum.inl "Senha incorreta.")
    ∧ login_user [⟨1, "Ana", "ana@x.com", some (hash_password "p1" "9f"), 5, true⟩]
        " ANA@x.com " "p1"
        = (true, Sum.inr ⟨1, "Ana", "ana@x.com", some (hash_password "p1" "9f"), 5, true⟩) :=
  ⟨(C3_theorem [] "x@y.z" "p").1 (by decide),
   (C3_theorem [⟨1, "Ana", "ana@x.com", some (hash_password "p1" "9f"), 5, false⟩]
      "ana@x.com" "p1").1 (by decide),
   ((C3_theorem [⟨1, "Ana", "ana@x.com", some (hash_password "p1" "9f"), 5, true⟩]
      "ana@x.com" "wrong").2
      ⟨1, "Ana", "ana@x.com", some (hash_password "p1" "9f"), 5, true⟩
      (by decide)).1 (by decide),
   ((C3_theorem [⟨1, "Ana", "ana@x.com", some (hash_password "p1" "9f"), 5, true⟩]
      " ANA@x.com " "p1").2
      ⟨1, "Ana", "ana@x.com", some (hash_password "p1" "9f"), 5, true⟩
      (by decide)).2 (by decide)⟩

/-- C4: when the catalog query succeeds with at least one `ativo` course,
`get_courses` returns exactly the active courses (a permutation of the
`ativo` filter), sorted ascending on `ordem`, projected to their display
fields; when the query fails or yields zero courses it returns the fixed
built-in example list instead — `get_courses` only reads its input and the
fallback is a fixed non-empty constant, so the result is never empty. -/
theorem C4_theorem (courses : List Course) (queryFails : Bool) :
    (courses.filter (fun c => c.ativo) ≠ [] →
      get_courses courses false
        = (sortByOrdem (courses.filter (fun c => c.ativo))).map courseView
      ∧ List.Perm (sortByOrdem (courses.filter (fun c => c.ativo)))
          (courses.filter (fun c => c.ativo))
      ∧ List.Pairwise (fun a b => a.ordem ≤ b.ordem)
          (sortByOrdem (courses.filter (fun c => c.ativo))))
    ∧ ((queryFails = true ∨ courses.filter (fun c => c.ativo) = []) →
        get_courses courses queryFails = fallback_courses)
    ∧ fallback_courses ≠ []
    ∧ get_courses courses queryFails ≠ [] := by
  refine ⟨?_, ?_, by simp [fallback_courses], ?_⟩
  · intro hne
    have hsne : sortByOrdem (courses.filter fun c => c.ativo) ≠ [] := by
      intro h0
      have hlen := (sortByOrdem_perm (courses.filter fun c => c.ativo)).length_eq
      rw [h0] at hlen
      exact hne (List.length_eq_zero.mp hlen.symm)
    rcases hs : sortByOrdem (courses.filter fun c => c.ativo) with _ | ⟨x, xs⟩
    · exact absurd hs hsne
    · refine ⟨by simp [get_courses, hs], hs ▸ sortByOrdem_perm _, hs ▸ sortByOrdem_sorted _⟩
  · rintro (hq | hf)
    · simp [get_courses, hq, fallback_courses]
    · cases queryFails <;> simp [get_courses, hf, sortByOrdem, fallback_courses]
  · cases queryFails with
    | true => simp [get_courses, fallback_courses]
    | false =>
      rcases hs : sortByOrdem (courses.filter fun c => c.ativo) with _ | ⟨x, xs⟩ <;>
        simp [get_courses, hs, fallback_courses]

/-- Witness for C4: a catalog with two active courses stored out of
`ordem` order and one inactive course, and the empty/failing catalog. -/
theorem C4_witness :
    ([(⟨"B", "", "", "", "", "", "", "", false, "", 2, true, 0⟩ : Course),
      ⟨"A", "", "", "", "", "", "", "", false, "", 1, true, 0⟩,
      ⟨"X", "", "", "", "", "", "", "", false, "", 0, false, 0⟩].filter (fun c => c.ativo) ≠ [])
    ∧ get_courses
        [⟨"B", "", "", "", "", "", "", "", false, "", 2, true, 0⟩,
         ⟨"A", "", "", "", "", "", "", "", false, "", 1, true, 0⟩,
         ⟨"X", "", "", "", "", "", "", "", false, "", 0, false, 0⟩] false
      = (sortByOrdem
          ([⟨"B", "", "", "", "", "", "", "", false, "", 2, true, 0⟩,
            ⟨"A", "", "", "", "", "", "", "", false, "", 1, true, 0⟩,
            ⟨"X", "", "", "", "", "", "", "", false, "", 0, false, 0⟩].filter
              (fun c => c.ativo))).map courseView
    ∧ get_courses [] false = fallback_courses
    ∧ get_courses [] true ≠ [] :=
  ⟨by decide,
   (( C4_theorem
      [⟨"B", "", "", "", "", "", "", "", false, "", 2, true, 0⟩,
       ⟨"A", "", "", "", "", "", "", "", false, "", 1, true, 0⟩,
       ⟨"X", "", "", "", "", "", "", "", false, "", 0, false, 0⟩] false).1 (by decide)).1,
   (C4_theorem [] false).2.1 (Or.inr rfl),
   (C4_theorem [] true).2.2.2⟩

/-- C5: `send_email` is a silent no-op without a configured SMTP host;
recipients are filtered to non-empty values and an empty remaining list is
a no-op; a raising transport is swallowed into an ordinary outcome (the
embedding is a total function into `EmailOutcome`, never an exception);
and the register result and stored users are the same whatever the mail
configuration and however the two notification sends fare. -/
theorem C5_theorem (cfg : SMTPConfig) (tf : Bool) (toAddr : Recipients)
    (subject body : String) :
    (cfg.host = "" → send_email cfg tf toAddr subject body = .noHost)
    ∧ (cfg.host ≠ "" → filterRecipients toAddr = [] →
        send_email cfg tf toAddr subject body = .noRecipients)
    ∧ (∀ msg, smtpTransport tf = Except.error msg → cfg.host ≠ "" →
        filterRecipients toAddr ≠ [] →
        send_email cfg tf toAddr subject body
          = .failureSwallowed (filterRecipients toAddr))
    ∧ (∀ cfg₂ tfU tfA tfU₂ tfA₂ adminEmails users name email password salt newId now,
        (register_user_notify cfg tfU tfA adminEmails users
            name email password salt newId now).1
          = (register_user_notify cfg₂ tfU₂ tfA₂ adminEmails users
              name email password salt newId now).1) := by
  refine ⟨?_, ?_, ?_, ?_⟩
  · intro h; simp [send_email, h]
  · intro h hr; simp [send_email, h, hr]
  · intro msg hmsg h hr
    cases tf with
    | false => exact absurd hmsg (by simp [smtpTransport])
    | true => simp [send_email, h, hr, smtpTransport]
  · intro cfg₂ tfU tfA tfU₂ tfA₂ adminEmails users name email password salt newId now
    by_cases h : (register_user users name email password salt newId now).1.1 = false <;>
      by_cases ha : adminEmails = ([] : List String) <;>
        simp [register_user_notify, h, ha]

/-- Witness for C5: no host, all-empty recipients, a raising transport,
and two registrations differing only in mail configuration and failures. -/
theorem C5_witness :
    send_email ⟨"", 587, "", "", true, ""⟩ false (.one "a@b.c") "s" "b" = .noHost
    ∧ send_email ⟨"smtp.x", 587, "", "", true, ""⟩ false (.many ["", ""]) "s" "b"
        = .noRecipients
    ∧ send_email ⟨"smtp.x", 587, "", "", true, ""⟩ true (.one "a@b.c") "s" "b"
        = .failureSwallowed ["a@b.c"]
    ∧ (register_user_notify ⟨"smtp.x", 587, "", "", true, ""⟩ true true
        ["adm@x.c"] [] "Ana" "ana@x.com" "p" "9f" 1 2).1
      = (register_user_notify ⟨"", 0, "", "", false, ""⟩ false false
          ["adm@x.c"] [] "Ana" "ana@x.com" "p" "9f" 1 2).1 :=
  ⟨( C5_theorem ⟨"", 587, "", "", true, ""⟩ false (.one "a@b.c") "s" "b").1 rfl,
   ( C5_theorem ⟨"smtp.x", 587, "", "", true, ""⟩ false (.many ["", ""]) "s" "b").2.1
     (by decide) (by decide),
   ( C5_theorem ⟨"smtp.x", 587, "", "", true, ""⟩ true (.one "a@b.c") "s" "b").2.2.1
     "SMTPException" rfl (by decide) (by decide),
   ( C5_theorem ⟨"smtp.x", 587, "", "", true, ""⟩ true (.one "x") "s" "b").2.2.2
     ⟨"", 0, "", "", false, ""⟩ true true false false ["adm@x.c"] [] "Ana" "ana@x.com"
     "p" "9f" 1 2⟩

/-- C7: the admin course form rejects an empty `nome` with the validation
message and inserts nothing; a non-empty `nome` appends exactly one
document carrying the supplied fields with `created_at = now`, and under
the form's widget defaults (`ordem = 0`, `ativo = True`) the inserted
document has `ordem = 0` and `ativo = true`. -/
theorem C7_theorem (nome categoria nivel carga_horaria tag imagem_url preco
    proxima_turma : String) (destaque : Bool) (descricao : String) (ordem : Int)
    (ativo : Bool) (now : Nat) (courses : List Course) :
    (nome = "" → create_course nome categoria nivel carga_horaria tag imagem_url
        preco proxima_turma destaque descricao ordem ativo now courses
      = (.validationError, courses))
    ∧ (nome ≠ "" →
        create_course nome categoria nivel carga_horaria tag imagem_url preco
            proxima_turma destaque descricao ordem ativo now courses
          = (.created ⟨nome, categoria, nivel, descricao, carga_horaria, tag,
               imagem_url, preco, destaque, proxima_turma, ordem, ativo, now⟩,
             courses ++ [⟨nome, categoria, nivel, descricao, carga_horaria, tag,
               imagem_url, preco, destaque, proxima_turma, ordem, ativo, now⟩])
        ∧ (create_course nome categoria nivel carga_horaria tag imagem_url preco
            proxima_turma destaque descricao ordem ativo now courses).2.length
          = courses.length + 1
        ∧ (create_course nome categoria nivel carga_horaria tag imagem_url preco
            proxima_turma destaque descricao 0 true now courses).1
          = .created ⟨nome, categoria, nivel, descricao, carga_horaria, tag,
              imagem_url, preco, destaque, proxima_turma, 0, true, now⟩) := by
  constructor
  · intro h; simp [create_course, h]
  · intro h; refine ⟨by simp [create_course, h], by simp [create_course, h], by simp [create_course, h]⟩

/-- Witness for C7: an empty name is rejected without insertion; the name
`"X"` with the form defaults is inserted once. -/
theorem C7_witness :
    create_course "" "" "" "" "" "" "" "" false "" 0 true 7 []
        = (.validationError, [])
    ∧ create_course "X" "" "" "" "" "" "" "" false "" 0 true 7 []
        = (.created ⟨"X", "", "", "", "", "", "", "", false, "", 0, true, 7⟩,
           [⟨"X", "", "", "", "", "", "", "", false, "", 0, true, 7⟩]) :=
  ⟨ ( C7_theorem "" "" "" "" "" "" "" "" false "" 0 true 7 []).1 rfl,
   (( C7_theorem "X" "" "" "" "" "" "" "" false "" 0 true 7 []).2 (by decide)).1⟩

/-- C8: submitting an enrollment with no session identity yields the
"log in first" outcome and returns the whole document store unchanged (no
collection is written); with a logged-in user it appends exactly the
denormalized snapshot of the course's display fields to `inscricoes`. -/
theorem C8_theorem (sessionUser : Option UserRec) (curso : CourseView)
    (now : Nat) (db : DBState) :
    (sessionUser = none →
      submit_enrollment sessionUser curso now db = (.unauthenticated, db))
    ∧ (∀ user, sessionUser = some user →
        submit_enrollment sessionUser curso now db
          = (.registered ⟨user.id, user.name, user.email, curso.nome, curso.tag,
               curso.preco, curso.proxima_turma, now⟩,
             { db with inscricoes := db.inscricoes ++
                [⟨user.id, user.name, user.email, curso.nome, curso.tag,
                  curso.preco, curso.proxima_turma, now⟩] })) := by
  constructor
  · intro h; simp [submit_enrollment, h]
  · intro user h; simp [submit_enrollment, h]

/-- Witness for C8: an anonymous session leaves a one-user, one-lead store
untouched; a logged-in user appends one snapshot. -/
theorem C8_witness :
    submit_enrollment none
        ⟨"Curso X", "Cat", "Niv", "Desc", "24h", "Tag", "", "997,00", false, "Set 2025"⟩
        9 ⟨[⟨1, "Ana", "ana@x.com", none, 5, true⟩], [], [], []⟩
      = (.unauthenticated, ⟨[⟨1, "Ana", "ana@x.com", none, 5, true⟩], [], [], []⟩)
    ∧ submit_enrollment (some ⟨1, "Ana", "ana@x.com", none, 5, true⟩)
        ⟨"Curso X", "Cat", "Niv", "Desc", "24h", "Tag", "", "997,00", false, "Set 2025"⟩
        9 ⟨[⟨1, "Ana", "ana@x.com", none, 5, true⟩], [], [], []⟩
      = (.registered ⟨1, "Ana", "ana@x.com", "Curso X", "Tag", "997,00", "Set 2025", 9⟩,
         ⟨[⟨1, "Ana", "ana@x.com", none, 5, true⟩], [], [],
          [⟨1, "Ana", "ana@x.com", "Curso X", "Tag", "997,00", "Set 2025", 9⟩]⟩) :=
  ⟨(C8_theorem none
      ⟨"Curso X", "Cat", "Niv", "Desc", "24h", "Tag", "", "997,00", false, "Set 2025"⟩
      9 ⟨[⟨1, "Ana", "ana@x.com", none, 5, true⟩], [], [], []⟩).1 rfl,
   (C8_theorem (some ⟨1, "Ana", "ana@x.com", none, 5, true⟩)
      ⟨"Curso X", "Cat", "Niv", "Desc", "24h", "Tag", "", "997,00", false, "Set 2025"⟩
      9 ⟨[⟨1, "Ana", "ana@x.com", none, 5, true⟩], [], [], []⟩).2
      ⟨1, "Ana", "ana@x.com", none, 5, true⟩ rfl⟩
